import Mathlib

/-
Shallow embedding of `src/refactored_code.py`, a pandas-based clinical-trial
report generator.  Cell values may be null (pandas NaN), modelled as `Option`;
numeric cells are rationals.  A dataframe carries its column schema so that
access to a missing column can fail, as `df["col"]` does in pandas.  Reading
the CSV file is abstracted as a lookup in a map from paths to parsed
dataframes; a path not in the map is a nonexistent/unreadable file.
-/

deriving instance DecidableEq for Except

namespace ClinicalTrial

/-- One row of the loaded dataframe.  The seven columns named by the program
are explicit fields; any additional columns of the CSV live in `extra` and
are never read by the analysis functions.  A `none` models a NaN cell. -/
structure Row where
  patient_id : Option String
  age : Option ℚ
  cancer_type : Option String
  baseline_tumor_size : Option ℚ
  final_tumor_size : Option ℚ
  treatment : Option String
  survival_months : Option ℚ
  extra : List (String × String) := []
deriving DecidableEq, Repr

/-- A loaded dataframe: the header (column names) and the rows. -/
structure DataFrame where
  cols : List String
  rows : List Row
deriving DecidableEq, Repr

/-- Errors of the program: `FileAccessError` (pandas `FileNotFoundError`)
and `MissingColumnError` (pandas `KeyError` on column access). -/
inductive PandasError where
  | fileAccessError (path : String)
  | missingColumnError (col : String)
deriving DecidableEq, Repr

/-- Whether a column is present in the schema of the dataframe. -/
def hasCol (df : DataFrame) (c : String) : Bool :=
  df.cols.contains c

/-- Constant `AGE_THRESHOLD = 50` from the source. -/
def AGE_THRESHOLD : ℚ := 50

/-- Constant `TARGET_CANCER_TYPE = "Lung"` from the source. -/
def TARGET_CANCER_TYPE : String := "Lung"

/-- Constant `TREATMENT_GROUP = "Treatment_A"` from the source. -/
def TREATMENT_GROUP : String := "Treatment_A"

/-- Constant `CONTROL_GROUP = "Control"` from the source. -/
def CONTROL_GROUP : String := "Control"

/-- Pandas elementwise `series >= t`: a NaN cell compares as False. -/
def cmpGe (v : Option ℚ) (t : ℚ) : Bool :=
  match v with
  | some a => decide (t ≤ a)
  | none => false

/-- Pandas elementwise `series == s` for strings: a NaN cell compares as False. -/
def cmpEqStr (v : Option String) (s : String) : Bool :=
  match v with
  | some c => c == s
  | none => false

/-- Pandas elementwise `series1 < series2`: a NaN on either side is False. -/
def cmpLt (a b : Option ℚ) : Bool :=
  match a, b with
  | some x, some y => decide (x < y)
  | _, _ => false

/-- The row-level boolean mask of `refactored_code.py` lines 42-46:
`(age >= AGE_THRESHOLD) & (cancer_type == TARGET_CANCER_TYPE)
 & (final_tumor_size < baseline_tumor_size)`. -/
def responsiveRow (r : Row) : Bool :=
  cmpGe r.age AGE_THRESHOLD &&
  cmpEqStr r.cancer_type TARGET_CANCER_TYPE &&
  cmpLt r.final_tumor_size r.baseline_tumor_size

/-- Embedding of `get_responsive_patients` (lines 27-48).  Each column access
`data["c"]` raises a `MissingColumnError` when `c` is absent, in the order the
Python expression evaluates them; otherwise the rows passing the mask are kept
and their `patient_id` cells returned in source order. -/
def get_responsive_patients (data : DataFrame) : Except PandasError (List (Option String)) :=
  if hasCol data "age" then
    if hasCol data "cancer_type" then
      if hasCol data "final_tumor_size" then
        if hasCol data "baseline_tumor_size" then
          if hasCol data "patient_id" then
            Except.ok ((data.rows.filter responsiveRow).map Row.patient_id)
          else Except.error (PandasError.missingColumnError "patient_id")
        else Except.error (PandasError.missingColumnError "baseline_tumor_size")
      else Except.error (PandasError.missingColumnError "final_tumor_size")
    else Except.error (PandasError.missingColumnError "cancer_type")
  else Except.error (PandasError.missingColumnError "age")

/-- The rows of the pandas group for key `g` under `data.groupby("treatment")`:
rows whose `treatment` cell equals `g`.  Rows with a NaN key are dropped by
`groupby` (pandas default `dropna=True`), which the `some` match enforces. -/
def groupRows (data : DataFrame) (g : String) : List Row :=
  data.rows.filter (fun r => r.treatment == some g)

/-- Pandas `.mean()` over the `survival_months` cells of one group: NaN cells are
skipped; the mean of no non-null values is NaN (`none`). -/
def groupMean (data : DataFrame) (g : String) : Option ℚ :=
  if (groupRows data g).filterMap Row.survival_months = [] then none
  else some (((groupRows data g).filterMap Row.survival_months).sum /
             (((groupRows data g).filterMap Row.survival_months).length : ℚ))

/-- Pandas `grouped.get(g, 0)`: the mean of the group when the key `g` occurs in
the grouped index (i.e. some row has `treatment == g`), else the default 0. -/
def groupGet (data : DataFrame) (g : String) : Option ℚ :=
  if groupRows data g = [] then some 0 else groupMean data g

/-- Result record of `compute_survival_statistics`: exactly the two keys of
the returned dict. -/
structure SurvivalStats where
  avg_survival_treatment_group : Option ℚ
  avg_survival_control : Option ℚ
deriving DecidableEq, Repr

/-- Embedding of `compute_survival_statistics` (lines 51-74):
`data.groupby("treatment")["survival_months"].mean()` followed by
`.get` with default 0 for the two fixed group labels.  The two column
accesses fail with `MissingColumnError` when absent, `treatment` first. -/
def compute_survival_statistics (data : DataFrame) : Except PandasError SurvivalStats :=
  if hasCol data "treatment" then
    if hasCol data "survival_months" then
      Except.ok ⟨groupGet data TREATMENT_GROUP, groupGet data CONTROL_GROUP⟩
    else Except.error (PandasError.missingColumnError "survival_months")
  else Except.error (PandasError.missingColumnError "treatment")

/-- Embedding of `load_clinical_data` (lines 10-24).  `pd.read_csv` is
abstracted by a filesystem `fs` mapping a path to the parsed dataframe;
a path outside the map fails as `FileAccessError` (`FileNotFoundError`).
No schema validation happens at load time, exactly as in the source. -/
def load_clinical_data (fs : String → Option DataFrame) (file_path : String) :
    Except PandasError DataFrame :=
  match fs file_path with
  | some df => Except.ok df
  | none => Except.error (PandasError.fileAccessError file_path)

/-- One line printed by `analyze_clinical_trial`, identified by its label and
the datum it carries. -/
inductive OutputLine where
  | avgSurvivalTreatmentA (v : Option ℚ)
  | avgSurvivalControl (v : Option ℚ)
  | responsivePatients (n : Nat)
deriving DecidableEq, Repr

/-- Embedding of `analyze_clinical_trial` (lines 77-99): load, filter,
aggregate, then print the three lines and return the responsive-patient list.
The first component is the sequence of lines actually printed (empty when an
exception escapes before the prints), the second the returned value or the
propagated error. -/
def analyze_clinical_trial (fs : String → Option DataFrame) (file_path : String) :
    List OutputLine × Except PandasError (List (Option String)) :=
  match load_clinical_data fs file_path with
  | Except.error e => ([], Except.error e)
  | Except.ok data =>
    match get_responsive_patients data with
    | Except.error e => ([], Except.error e)
    | Except.ok responsive_patients =>
      match compute_survival_statistics data with
      | Except.error e => ([], Except.error e)
      | Except.ok survival_stats =>
        ([OutputLine.avgSurvivalTreatmentA survival_stats.avg_survival_treatment_group,
          OutputLine.avgSurvivalControl survival_stats.avg_survival_control,
          OutputLine.responsivePatients responsive_patients.length],
         Except.ok responsive_patients)

/-- Specification-level reading of the three filter predicates: the row has a
non-null age at least 50, cancer type exactly "Lung", and non-null tumor sizes
with the final one strictly below the baseline. -/
def SatisfiesFilter (r : Row) : Prop :=
  (∃ a, r.age = some a ∧ AGE_THRESHOLD ≤ a) ∧
  r.cancer_type = some TARGET_CANCER_TYPE ∧
  (∃ f b, r.final_tumor_size = some f ∧ r.baseline_tumor_size = some b ∧ f < b)

theorem responsiveRow_iff (r : Row) : responsiveRow r = true ↔ SatisfiesFilter r := by
  unfold responsiveRow SatisfiesFilter cmpGe cmpEqStr cmpLt
  cases hage : r.age <;> cases hct : r.cancer_type <;>
    cases hft : r.final_tumor_size <;> cases hbt : r.baseline_tumor_size <;>
    simp [Bool.and_eq_true, beq_iff_eq, and_assoc]

instance (r : Row) : Decidable (SatisfiesFilter r) :=
  decidable_of_iff (responsiveRow r = true) (responsiveRow_iff r)

/-- The seven-column header used by the end-to-end scenario. -/
def fullHeader : List String :=
  ["patient_id", "age", "cancer_type", "baseline_tumor_size",
   "final_tumor_size", "treatment", "survival_months"]

/-- Rows of the end-to-end scenario of the specification (§8). -/
def testRows : List Row :=
  [⟨some "P1", some 60, some "Lung", some 10, some 5, some "Treatment_A", some 20, []⟩,
   ⟨some "P2", some 40, some "Lung", some 10, some 5, some "Control", some 10, []⟩,
   ⟨some "P3", some 70, some "Lung", some 8, some 9, some "Treatment_A", some 30, []⟩]

/-- The end-to-end scenario dataset. -/
def testDF : DataFrame := ⟨fullHeader, testRows⟩

/-- The five columns read by `get_responsive_patients`. -/
def filterCols (df : DataFrame) : Bool :=
  hasCol df "age" && hasCol df "cancer_type" && hasCol df "final_tumor_size" &&
  hasCol df "baseline_tumor_size" && hasCol df "patient_id"

/-- The seven columns named by the program (data-model schema). -/
def requiredCols (df : DataFrame) : Bool :=
  filterCols df && hasCol df "treatment" && hasCol df "survival_months"

theorem get_responsive_eq (df : DataFrame) (h : filterCols df = true) :
    get_responsive_patients df =
      Except.ok ((df.rows.filter responsiveRow).map Row.patient_id) := by
  simp only [filterCols, Bool.and_eq_true] at h
  obtain ⟨⟨⟨⟨h1, h2⟩, h3⟩, h4⟩, h5⟩ := h
  simp [get_responsive_patients, h1, h2, h3, h4, h5]

theorem responsiveRow_eq_decide (r : Row) :
    responsiveRow r = decide (SatisfiesFilter r) := by
  by_cases h : SatisfiesFilter r
  · rw [(responsiveRow_iff r).mpr h, decide_eq_true h]
  · cases hb : responsiveRow r
    · simp [h]
    · exact absurd ((responsiveRow_iff r).mp hb) h

theorem cmpLt_none_right (a : Option ℚ) : cmpLt a none = false := by
  cases a <;> rfl

theorem cmpLt_none_left (b : Option ℚ) : cmpLt none b = false := by
  cases b <;> rfl

/-- C1: on any dataset carrying the five referenced columns, the Responder
Filter returns exactly the `patient_id` cells of the rows satisfying the
three predicates, in source row order, one entry per matching row. -/
theorem responder_filter_exact (df : DataFrame) (hc : filterCols df = true) :
    get_responsive_patients df =
      Except.ok ((df.rows.filter (fun r => decide (SatisfiesFilter r))).map Row.patient_id) := by
  have hf : (fun r => decide (SatisfiesFilter r)) = responsiveRow :=
    funext fun r => (responsiveRow_eq_decide r).symm
  rw [hf, get_responsive_eq df hc]

/-- Witness for C1 at the end-to-end scenario dataset. -/
theorem responder_filter_exact_witness :
    filterCols testDF = true ∧
    get_responsive_patients testDF =
      Except.ok ((testDF.rows.filter (fun r => decide (SatisfiesFilter r))).map Row.patient_id) :=
  ⟨by decide, responder_filter_exact testDF (by decide)⟩

/-- C3: on the three-row scenario dataset, the filter returns exactly the
identifier P1 and the group means are 25 and 10. -/
theorem end_to_end_scenario :
    get_responsive_patients testDF = Except.ok [some "P1"] ∧
    compute_survival_statistics testDF = Except.ok ⟨some 25, some 10⟩ := by
  refine ⟨by decide, ?_⟩
  simp +decide [compute_survival_statistics, hasCol, groupGet, groupMean, groupRows,
    testDF, testRows, fullHeader, TREATMENT_GROUP, CONTROL_GROUP, List.filter, List.filterMap]
  norm_num

/-- A dataset with the full header whose single row matches nothing. -/
def dfNoMatch : DataFrame :=
  ⟨fullHeader,
   [⟨some "P2", some 40, some "Lung", some 10, some 5, some "Control", some 10, []⟩]⟩

/-- C7: a dataset (with the referenced columns) in which no row satisfies the
three predicates yields the empty list, not an error. -/
theorem no_match_empty (df : DataFrame) (hc : filterCols df = true)
    (h : ∀ r ∈ df.rows, ¬ SatisfiesFilter r) :
    get_responsive_patients df = Except.ok [] := by
  rw [get_responsive_eq df hc]
  have hnil : df.rows.filter responsiveRow = [] := by
    rw [List.filter_eq_nil_iff]
    intro a ha
    simpa [responsiveRow_iff] using h a ha
  rw [hnil]
  rfl

/-- Witness for C7 on a concrete non-matching dataset. -/
theorem no_match_empty_witness :
    filterCols dfNoMatch = true ∧ (∀ r ∈ dfNoMatch.rows, ¬ SatisfiesFilter r) ∧
    get_responsive_patients dfNoMatch = Except.ok [] :=
  ⟨by decide, by decide, no_match_empty dfNoMatch (by decide) (by decide)⟩

/-- C9: a row with a null age, cancer type, final tumor size or baseline
tumor size fails the boolean mask, hence is excluded from the filter
output, which consists of the mask-passing rows only. -/
theorem null_fails_filter (df : DataFrame) (r : Row) (hc : filterCols df = true)
    (hnull : r.age = none ∨ r.cancer_type = none ∨
             r.final_tumor_size = none ∨ r.baseline_tumor_size = none) :
    responsiveRow r = false ∧ ¬ SatisfiesFilter r ∧
    get_responsive_patients df =
      Except.ok ((df.rows.filter responsiveRow).map Row.patient_id) := by
  have hfalse : responsiveRow r = false := by
    rcases hnull with h | h | h | h <;>
      simp [responsiveRow, cmpGe, cmpEqStr, cmpLt_none_left, cmpLt_none_right, h]
  refine ⟨hfalse, ?_, get_responsive_eq df hc⟩
  intro hs
  have := (responsiveRow_iff r).mpr hs
  rw [hfalse] at this
  exact Bool.false_ne_true this

/-- A row with a null age in an otherwise matching record. -/
def nullAgeRow : Row :=
  ⟨some "P9", none, some "Lung", some 10, some 5, some "Control", some 10, []⟩

/-- Witness for C9 on a dataset containing a null-age row. -/
theorem null_fails_filter_witness :
    filterCols ⟨fullHeader, [nullAgeRow]⟩ = true ∧ nullAgeRow.age = none ∧
    responsiveRow nullAgeRow = false ∧ ¬ SatisfiesFilter nullAgeRow ∧
    get_responsive_patients ⟨fullHeader, [nullAgeRow]⟩ = Except.ok [] :=
  ⟨by decide, by decide,
   (null_fails_filter ⟨fullHeader, [nullAgeRow]⟩ nullAgeRow (by decide)
      (Or.inl (by decide))).1,
   (null_fails_filter ⟨fullHeader, [nullAgeRow]⟩ nullAgeRow (by decide)
      (Or.inl (by decide))).2.1,
   by decide⟩

/-- Specification-level group of a dataset: the rows whose `treatment` cell
equals the given label. -/
def specGroup (df : DataFrame) (g : String) : List Row :=
  df.rows.filter (fun r => decide (r.treatment = some g))

theorem groupRows_eq_spec (df : DataFrame) (g : String) :
    groupRows df g = specGroup df g := by
  unfold groupRows specGroup
  apply List.filter_congr
  intro r _
  rw [Bool.eq_iff_iff]
  simp [beq_iff_eq]

theorem filterMap_length_all (l : List Row)
    (h : ∀ r ∈ l, (Row.survival_months r).isSome = true) :
    (l.filterMap Row.survival_months).length = l.length := by
  induction l with
  | nil => rfl
  | cons a t ih =>
    obtain ⟨v, hv⟩ := Option.isSome_iff_exists.mp (h a (List.mem_cons_self a t))
    simp [List.filterMap_cons, hv, ih (fun r hr => h r (List.mem_cons_of_mem a hr))]

/-- Specification-level contract for one group mean: the default 0 when the
group has no row, and the unweighted arithmetic mean of the
`survival_months` of the group when the group is nonempty and those cells are non-null. -/
def GroupMeanSpec (df : DataFrame) (g : String) (v : Option ℚ) : Prop :=
  (specGroup df g = [] → v = some 0) ∧
  (specGroup df g ≠ [] →
    (∀ r ∈ specGroup df g, (Row.survival_months r).isSome = true) →
    v = some (((specGroup df g).filterMap Row.survival_months).sum /
              ((specGroup df g).length : ℚ)))

theorem groupGet_spec (df : DataFrame) (g : String) :
    GroupMeanSpec df g (groupGet df g) := by
  have he : groupRows df g = specGroup df g := groupRows_eq_spec df g
  constructor
  · intro h0
    unfold groupGet
    rw [he, if_pos h0]
  · intro hne hall
    have hlen := filterMap_length_all (specGroup df g) hall
    have hvne : (specGroup df g).filterMap Row.survival_months ≠ [] := by
      intro hv
      apply hne
      rw [hv] at hlen
      exact (List.length_eq_zero.mp hlen.symm)
    unfold groupGet groupMean
    rw [he, if_neg hne, if_neg hvne, hlen]

/-- C2: on any dataset with the `treatment` and `survival_months` columns,
the aggregator returns a record of exactly the two named fields, each the
unweighted mean of `survival_months` over the rows of its group, 0 when the
group is empty; rows with other labels touch neither field and no error is
raised. -/
theorem survival_statistics_spec (df : DataFrame)
    (ht : hasCol df "treatment" = true) (hs : hasCol df "survival_months" = true) :
    ∃ stats : SurvivalStats,
      compute_survival_statistics df = Except.ok stats ∧
      GroupMeanSpec df TREATMENT_GROUP stats.avg_survival_treatment_group ∧
      GroupMeanSpec df CONTROL_GROUP stats.avg_survival_control := by
  refine ⟨⟨groupGet df TREATMENT_GROUP, groupGet df CONTROL_GROUP⟩, ?_,
    groupGet_spec df TREATMENT_GROUP, groupGet_spec df CONTROL_GROUP⟩
  simp [compute_survival_statistics, ht, hs]

/-- Witness for C2 at the end-to-end scenario dataset. -/
theorem survival_statistics_spec_witness :
    hasCol testDF "treatment" = true ∧ hasCol testDF "survival_months" = true ∧
    ∃ stats : SurvivalStats,
      compute_survival_statistics testDF = Except.ok stats ∧
      GroupMeanSpec testDF TREATMENT_GROUP stats.avg_survival_treatment_group ∧
      GroupMeanSpec testDF CONTROL_GROUP stats.avg_survival_control :=
  ⟨by decide, by decide, survival_statistics_spec testDF (by decide) (by decide)⟩

theorem filter_group_dropNull (g : String) (l : List Row) :
    (l.filter (fun r => r.treatment.isSome)).filter (fun r => r.treatment == some g) =
      l.filter (fun r => r.treatment == some g) := by
  induction l with
  | nil => rfl
  | cons a t ih =>
    cases h : a.treatment with
    | none => simp [List.filter_cons, h, ih]
    | some v => simp [List.filter_cons, h, ih]

/-- C10: rows with a null `treatment` are dropped by the group-by, so
removing them from a dataset leaves the aggregator output unchanged —
they contribute to neither average. -/
theorem null_treatment_dropped (df : DataFrame) :
    compute_survival_statistics df =
      compute_survival_statistics
        ⟨df.cols, df.rows.filter (fun r => r.treatment.isSome)⟩ := by
  simp only [compute_survival_statistics, hasCol, groupGet, groupMean, groupRows,
    filter_group_dropNull]

/-- A dataframe whose header lacks the `age` column (for example parsed from
a CSV whose only column is `patient_id`).  Loading it succeeds. -/
def dfMissingAge : DataFrame := ⟨["patient_id"], []⟩

/-- A filesystem on which every path reads as `dfMissingAge`. -/
def fsMissingAge : String → Option DataFrame := fun _ => some dfMissingAge

/-- A filesystem on which every path reads as the scenario dataset. -/
def fsTest : String → Option DataFrame := fun _ => some testDF

/-- C4 counterexample: a load that succeeds (on a dataframe missing the `age`
column) after which `analyze_clinical_trial` prints no line at all, because
the Responder Filter raises before the first print. -/
theorem load_ok_yet_no_output :
    load_clinical_data fsMissingAge "clinical_trial_patients.csv" = Except.ok dfMissingAge ∧
    (analyze_clinical_trial fsMissingAge "clinical_trial_patients.csv").1 = [] := by
  decide

/-- C4 (amended): whenever the load succeeds AND the loaded dataset carries
the seven referenced columns — equivalently, whenever the whole pipeline
succeeds — `analyze_clinical_trial` prints exactly the three lines, in
order, and returns the identifier sequence of the Responder Filter. -/
theorem pipeline_output_three_lines (fs : String → Option DataFrame)
    (path : String) (df : DataFrame)
    (hload : fs path = some df) (hc : requiredCols df = true) :
    ∃ ids stats,
      get_responsive_patients df = Except.ok ids ∧
      compute_survival_statistics df = Except.ok stats ∧
      analyze_clinical_trial fs path =
        ([OutputLine.avgSurvivalTreatmentA stats.avg_survival_treatment_group,
          OutputLine.avgSurvivalControl stats.avg_survival_control,
          OutputLine.responsivePatients ids.length],
         Except.ok ids) := by
  simp only [requiredCols, Bool.and_eq_true] at hc
  obtain ⟨⟨hfc, htr⟩, hsv⟩ := hc
  refine ⟨_, ⟨groupGet df TREATMENT_GROUP, groupGet df CONTROL_GROUP⟩,
    get_responsive_eq df hfc, ?_, ?_⟩
  · simp [compute_survival_statistics, htr, hsv]
  · simp [analyze_clinical_trial, load_clinical_data, hload,
      get_responsive_eq df hfc, compute_survival_statistics, htr, hsv]

/-- Witness for the amended C4 on the scenario dataset. -/
theorem pipeline_output_three_lines_witness :
    fsTest "clinical_trial_patients.csv" = some testDF ∧ requiredCols testDF = true ∧
    ∃ ids stats,
      get_responsive_patients testDF = Except.ok ids ∧
      compute_survival_statistics testDF = Except.ok stats ∧
      analyze_clinical_trial fsTest "clinical_trial_patients.csv" =
        ([OutputLine.avgSurvivalTreatmentA stats.avg_survival_treatment_group,
          OutputLine.avgSurvivalControl stats.avg_survival_control,
          OutputLine.responsivePatients ids.length],
         Except.ok ids) :=
  ⟨rfl, by decide,
   pipeline_output_three_lines fsTest "clinical_trial_patients.csv" testDF rfl (by decide)⟩

/-- C5: on every input, either the pipeline succeeds and exactly the three
lines are printed, or it fails and not a single line is printed. -/
theorem all_or_nothing (fs : String → Option DataFrame) (path : String) :
    (∃ ids a b, (analyze_clinical_trial fs path).2 = Except.ok ids ∧
      (analyze_clinical_trial fs path).1 =
        [OutputLine.avgSurvivalTreatmentA a, OutputLine.avgSurvivalControl b,
         OutputLine.responsivePatients ids.length]) ∨
    (∃ e, (analyze_clinical_trial fs path).2 = Except.error e ∧
      (analyze_clinical_trial fs path).1 = []) := by
  rcases hl : load_clinical_data fs path with e | df
  · right
    exact ⟨e, by simp [analyze_clinical_trial, hl], by simp [analyze_clinical_trial, hl]⟩
  · rcases hr : get_responsive_patients df with e | ids
    · right
      exact ⟨e, by simp [analyze_clinical_trial, hl, hr],
        by simp [analyze_clinical_trial, hl, hr]⟩
    · rcases hs : compute_survival_statistics df with e | stats
      · right
        exact ⟨e, by simp [analyze_clinical_trial, hl, hr, hs],
          by simp [analyze_clinical_trial, hl, hr, hs]⟩
      · left
        exact ⟨ids, stats.avg_survival_treatment_group, stats.avg_survival_control,
          by simp [analyze_clinical_trial, hl, hr, hs],
          by simp [analyze_clinical_trial, hl, hr, hs]⟩

theorem missing_column_error (df : DataFrame)
    (hd : hasCol df "age" = false ∨ hasCol df "cancer_type" = false ∨
          hasCol df "final_tumor_size" = false ∨ hasCol df "baseline_tumor_size" = false ∨
          hasCol df "patient_id" = false) :
    ∃ c, hasCol df c = false ∧
      get_responsive_patients df = Except.error (PandasError.missingColumnError c) := by
  cases h1 : hasCol df "age" with
  | false => exact ⟨"age", h1, by simp [get_responsive_patients, h1]⟩
  | true =>
    cases h2 : hasCol df "cancer_type" with
    | false => exact ⟨"cancer_type", h2, by simp [get_responsive_patients, h1, h2]⟩
    | true =>
      cases h3 : hasCol df "final_tumor_size" with
      | false =>
        exact ⟨"final_tumor_size", h3, by simp [get_responsive_patients, h1, h2, h3]⟩
      | true =>
        cases h4 : hasCol df "baseline_tumor_size" with
        | false =>
          exact ⟨"baseline_tumor_size", h4,
            by simp [get_responsive_patients, h1, h2, h3, h4]⟩
        | true =>
          cases h5 : hasCol df "patient_id" with
          | false =>
            exact ⟨"patient_id", h5,
              by simp [get_responsive_patients, h1, h2, h3, h4, h5]⟩
          | true => simp_all

/-- C6: a nonexistent path fails the load with `FileAccessError`; a dataset
missing one of the referenced columns fails the Responder Filter with a
`MissingColumnError` naming a missing column; both failures propagate out of
`analyze_clinical_trial` unmodified. -/
theorem error_kinds_and_propagation (fs : String → Option DataFrame)
    (path : String) (df : DataFrame) :
    (fs path = none →
      load_clinical_data fs path = Except.error (PandasError.fileAccessError path) ∧
      (analyze_clinical_trial fs path).2 = Except.error (PandasError.fileAccessError path)) ∧
    ((hasCol df "age" = false ∨ hasCol df "cancer_type" = false ∨
      hasCol df "final_tumor_size" = false ∨ hasCol df "baseline_tumor_size" = false ∨
      hasCol df "patient_id" = false) →
      ∃ c, hasCol df c = false ∧
        get_responsive_patients df = Except.error (PandasError.missingColumnError c)) ∧
    (∀ e, fs path = some df → get_responsive_patients df = Except.error e →
      (analyze_clinical_trial fs path).2 = Except.error e) := by
  refine ⟨?_, missing_column_error df, ?_⟩
  · intro hnone
    constructor
    · simp [load_clinical_data, hnone]
    · simp [analyze_clinical_trial, load_clinical_data, hnone]
  · intro e hsome herr
    simp [analyze_clinical_trial, load_clinical_data, hsome, herr]

/-- Witness for C6: a missing file, a dataframe without the `age` column, and
the propagation of the filter error through the orchestrator. -/
theorem error_kinds_and_propagation_witness :
    load_clinical_data (fun _ => none) "nope.csv" =
      Except.error (PandasError.fileAccessError "nope.csv") ∧
    (∃ c, hasCol dfMissingAge c = false ∧
      get_responsive_patients dfMissingAge =
        Except.error (PandasError.missingColumnError c)) ∧
    (analyze_clinical_trial fsMissingAge "nope.csv").2 =
      Except.error (PandasError.missingColumnError "age") :=
  ⟨((error_kinds_and_propagation (fun _ => none) "nope.csv" dfMissingAge).1 rfl).1,
   (error_kinds_and_propagation (fun _ => none) "nope.csv" dfMissingAge).2.1
     (Or.inl (by decide)),
   (error_kinds_and_propagation fsMissingAge "nope.csv" dfMissingAge).2.2
     (PandasError.missingColumnError "age") rfl (by decide)⟩

/-- The projection of a row to the seven named columns, forgetting any extra
columns.  Two rows with equal projections are indistinguishable to the
analysis functions. -/
structure Named where
  patient_id : Option String
  age : Option ℚ
  cancer_type : Option String
  baseline_tumor_size : Option ℚ
  final_tumor_size : Option ℚ
  treatment : Option String
  survival_months : Option ℚ
deriving DecidableEq, Repr

/-- Project a row to its seven named columns. -/
def namedOf (r : Row) : Named :=
  ⟨r.patient_id, r.age, r.cancer_type, r.baseline_tumor_size,
   r.final_tumor_size, r.treatment, r.survival_months⟩

/-- The boolean mask of the Responder Filter, expressed on the projection. -/
def respN (n : Named) : Bool :=
  cmpGe n.age AGE_THRESHOLD &&
  cmpEqStr n.cancer_type TARGET_CANCER_TYPE &&
  cmpLt n.final_tumor_size n.baseline_tumor_size

theorem filter_map_named_congr (p : Named → Bool) (l1 l2 : List Row)
    (h : l1.map namedOf = l2.map namedOf) :
    (l1.filter (fun r => p (namedOf r))).map namedOf =
      (l2.filter (fun r => p (namedOf r))).map namedOf := by
  induction l1 generalizing l2 with
  | nil =>
    cases l2 with
    | nil => rfl
    | cons b t2 => simp at h
  | cons a t1 ih =>
    cases l2 with
    | nil => simp at h
    | cons b t2 =>
      simp only [List.map_cons, List.cons.injEq] at h
      obtain ⟨hab, ht⟩ := h
      by_cases hp : p (namedOf b) = true
      · simp [List.filter_cons, hab, hp, ih t2 ht]
      · simp [List.filter_cons, hab, hp, ih t2 ht]

theorem groupGet_congr (df1 df2 : DataFrame) (g : String)
    (h : df1.rows.map namedOf = df2.rows.map namedOf) :
    groupGet df1 g = groupGet df2 g := by
  have hf : (groupRows df1 g).map namedOf = (groupRows df2 g).map namedOf :=
    filter_map_named_congr (fun n => n.treatment == some g) df1.rows df2.rows h
  have hsurv : ∀ l : List Row,
      l.filterMap Row.survival_months = (l.map namedOf).filterMap Named.survival_months := by
    intro l
    rw [List.filterMap_map]
    rfl
  have hvals : (groupRows df1 g).filterMap Row.survival_months =
      (groupRows df2 g).filterMap Row.survival_months := by
    rw [hsurv (groupRows df1 g), hsurv (groupRows df2 g), hf]
  have hemp : (groupRows df1 g = []) ↔ (groupRows df2 g = []) := by
    constructor
    · intro he
      have hf2 := hf
      rw [he] at hf2
      exact List.map_eq_nil_iff.mp hf2.symm
    · intro he
      have hf2 := hf
      rw [he] at hf2
      exact List.map_eq_nil_iff.mp hf2
  unfold groupGet groupMean
  by_cases he : groupRows df1 g = []
  · rw [if_pos he, if_pos (hemp.mp he)]
  · rw [if_neg he, if_neg (fun hx => he (hemp.mpr hx)), hvals]

/-- C8: two datasets (each carrying the seven named columns) whose rows agree
on those seven columns — differing only in extra columns — receive identical
results from both the Responder Filter and the Survival Aggregator. -/
theorem extra_columns_ignored (df1 df2 : DataFrame)
    (hc1 : requiredCols df1 = true) (hc2 : requiredCols df2 = true)
    (h : df1.rows.map namedOf = df2.rows.map namedOf) :
    get_responsive_patients df1 = get_responsive_patients df2 ∧
    compute_survival_statistics df1 = compute_survival_statistics df2 := by
  simp only [requiredCols, Bool.and_eq_true] at hc1 hc2
  obtain ⟨⟨hf1, ht1⟩, hs1⟩ := hc1
  obtain ⟨⟨hf2, ht2⟩, hs2⟩ := hc2
  constructor
  · rw [get_responsive_eq df1 hf1, get_responsive_eq df2 hf2]
    have hfil : (df1.rows.filter responsiveRow).map namedOf =
        (df2.rows.filter responsiveRow).map namedOf :=
      filter_map_named_congr respN df1.rows df2.rows h
    have hpid : ∀ l : List Row,
        l.map Row.patient_id = (l.map namedOf).map Named.patient_id := by
      intro l
      rw [List.map_map]
      rfl
    rw [hpid (df1.rows.filter responsiveRow), hpid (df2.rows.filter responsiveRow), hfil]
  · simp only [compute_survival_statistics, ht1, hs1, ht2, hs2, if_true]
    rw [groupGet_congr df1 df2 TREATMENT_GROUP h, groupGet_congr df1 df2 CONTROL_GROUP h]

/-- The scenario dataset extended with an extra `notes` column on every row. -/
def dfExtra : DataFrame :=
  ⟨fullHeader ++ ["notes"],
   testRows.map (fun r => { r with extra := [("notes", "present")] })⟩

/-- Witness for C8: the scenario dataset with and without an extra column. -/
theorem extra_columns_ignored_witness :
    requiredCols testDF = true ∧ requiredCols dfExtra = true ∧
    testDF.rows.map namedOf = dfExtra.rows.map namedOf ∧
    (get_responsive_patients testDF = get_responsive_patients dfExtra ∧
     compute_survival_statistics testDF = compute_survival_statistics dfExtra) :=
  ⟨by decide, by decide, by decide,
   extra_columns_ignored testDF dfExtra (by decide) (by decide) (by decide)⟩

end ClinicalTrial
